import Mathlib

/-!
Shallow embedding of `alacritty/src/display/window.rs`: the cross-platform
window-management core of the Alacritty terminal emulator.  Native windowing
calls are modelled observationally: every mutator returns the updated
`Window` together with the list of calls it pushed to the native layer, and
a `NativeWindow` record mirrors the state the native layer would hold after
honouring those calls.  Panics (`expect`, arithmetic overflow) are modelled
by the `Fatal` result type.  `f32`/`f64` arithmetic is idealized over `ℚ`.
-/

namespace Alacritty

/-- `winit::window::CursorIcon` (only the shape matters to this module). -/
inductive CursorIcon
  | Text
  | Default
  | Pointer
  | Crosshair
deriving DecidableEq

/-- `winit::window::Theme`. -/
inductive Theme
  | Light
  | Dark
deriving DecidableEq

/-- `winit::window::Fullscreen`: exclusive mode over a video mode, or
borderless over an optional monitor (`None` = current monitor). -/
inductive Fullscreen
  | Exclusive (video_mode : Nat)
  | Borderless (monitor : Option Nat)
deriving DecidableEq

/-- `winit::window::ImePurpose`. -/
inductive ImePurpose
  | Normal
  | Terminal
  | Password
deriving DecidableEq

/-- `raw_window_handle::RawWindowHandle`, tagged by platform kind. -/
inductive RawWindowHandle
  | Xlib (handle : Nat)
  | Wayland (handle : Nat)
  | AppKit (ns_window : Nat)
  | Win32 (hwnd : Nat)
deriving DecidableEq

/-- One call pushed to the native windowing layer (`winit`). -/
inductive NativeCall
  | setTitle (s : String)
  | setCursorIcon (c : CursorIcon)
  | setCursorVisible (v : Bool)
  | requestRedraw
  | setImeAllowed (b : Bool)
  | setImePurpose (p : ImePurpose)
  | setTransparent (b : Bool)
  | setFullscreen (f : Option Fullscreen)
  | setImeCursorArea (x y width height : ℚ)
  | selectTabAtIndex (i : Nat)
deriving DecidableEq

/-- State held by the native window (the `winit::window::Window` value). -/
structure NativeWindow where
  raw_handle : RawWindowHandle
  scale_factor : ℚ
  title : String
  cursor_icon : CursorIcon
  cursor_visible : Bool
  ime_allowed : Bool
  ime_purpose : ImePurpose
  transparent : Bool
  fullscreen : Option Fullscreen
  num_tabs : Nat
deriving DecidableEq

/-- Effect of one native call on the native window's state. -/
def NativeWindow.apply (w : NativeWindow) : NativeCall → NativeWindow
  | .setTitle s => { w with title := s }
  | .setCursorIcon c => { w with cursor_icon := c }
  | .setCursorVisible v => { w with cursor_visible := v }
  | .requestRedraw => w
  | .setImeAllowed b => { w with ime_allowed := b }
  | .setImePurpose p => { w with ime_purpose := p }
  | .setTransparent b => { w with transparent := b }
  | .setFullscreen f => { w with fullscreen := f }
  | .setImeCursorArea _ _ _ _ => w
  | .selectTabAtIndex _ => w

/-- The `Window` struct of `window.rs`. -/
structure Window where
  has_frame : Bool
  scale_factor : ℚ
  requested_redraw : Bool
  window : NativeWindow
  title : String
  is_x11 : Bool
  current_mouse_cursor : CursorIcon
  mouse_visible : Bool
deriving DecidableEq

/-- Result of an operation that can hit a Rust panic (`expect`, overflow). -/
inductive Fatal (α : Type) where
  | panicked (msg : String)
  | ok (val : α)
deriving DecidableEq

/-- `Window::set_title`: updates the cache, then unconditionally pushes
`set_title` to the native window (no equality guard in the source). -/
def Window.set_title (w : Window) (title : String) : Window × List NativeCall :=
  let w := { w with title := title }
  ({ w with window := w.window.apply (NativeCall.setTitle w.title) },
    [NativeCall.setTitle w.title])

/-- `Window::request_redraw`: native request only when `requested_redraw`
is not yet set; sets the flag. -/
def Window.request_redraw (w : Window) : Window × List NativeCall :=
  if !w.requested_redraw then
    let w := { w with requested_redraw := true }
    ({ w with window := w.window.apply NativeCall.requestRedraw }, [NativeCall.requestRedraw])
  else (w, [])

/-- `Window::set_mouse_cursor`: short-circuits when the shape equals the
cached `current_mouse_cursor`. -/
def Window.set_mouse_cursor (w : Window) (cursor : CursorIcon) : Window × List NativeCall :=
  if cursor ≠ w.current_mouse_cursor then
    let w := { w with current_mouse_cursor := cursor }
    ({ w with window := w.window.apply (NativeCall.setCursorIcon cursor) },
      [NativeCall.setCursorIcon cursor])
  else (w, [])

/-- `Window::set_mouse_visible`: short-circuits when equal to the cached
`mouse_visible`. -/
def Window.set_mouse_visible (w : Window) (visible : Bool) : Window × List NativeCall :=
  if visible ≠ w.mouse_visible then
    let w := { w with mouse_visible := visible }
    ({ w with window := w.window.apply (NativeCall.setCursorVisible visible) },
      [NativeCall.setCursorVisible visible])
  else (w, [])

/-- `Window::set_ime_allowed`: swallowed on X11, forwarded elsewhere. -/
def Window.set_ime_allowed (w : Window) (allowed : Bool) : Window × List NativeCall :=
  if !w.is_x11 then
    ({ w with window := w.window.apply (NativeCall.setImeAllowed allowed) },
      [NativeCall.setImeAllowed allowed])
  else (w, [])

/-- `Window::set_fullscreen`: maps a boolean to borderless-on-current-monitor
or none. -/
def Window.set_fullscreen (w : Window) (fullscreen : Bool) : Window × List NativeCall :=
  if fullscreen then
    ({ w with window := w.window.apply (NativeCall.setFullscreen (some (.Borderless none))) },
      [NativeCall.setFullscreen (some (.Borderless none))])
  else
    ({ w with window := w.window.apply (NativeCall.setFullscreen none) },
      [NativeCall.setFullscreen none])

/-- `Window::toggle_fullscreen`: reads the native fullscreen state and
inverts it. -/
def Window.toggle_fullscreen (w : Window) : Window × List NativeCall :=
  w.set_fullscreen w.window.fullscreen.isNone

/-- `alacritty_terminal::index::Point<usize>` as used by
`update_ime_position`: a terminal grid coordinate. -/
structure Point where
  line : Nat
  column : Nat
deriving DecidableEq

/-- The slice of `SizeInfo` read by `update_ime_position` (`f32` fields
idealized over `ℚ`). -/
structure SizeInfo where
  padding_x : ℚ
  padding_y : ℚ
  cell_width : ℚ
  cell_height : ℚ
deriving DecidableEq

/-- `Window::update_ime_position`: pure coordinate arithmetic followed by a
single `set_ime_cursor_area` native call. -/
def Window.update_ime_position (w : Window) (point : Point) (size : SizeInfo) :
    Window × List NativeCall :=
  let offset : Nat := if w.is_x11 then 1 else 0
  let nspot_x : ℚ := size.padding_x + (point.column : ℚ) * size.cell_width
  let nspot_y : ℚ := size.padding_y + ((point.line + offset : Nat) : ℚ) * size.cell_height
  let width : ℚ := size.cell_width * 2
  let height : ℚ := size.cell_height
  ({ w with window := w.window.apply (NativeCall.setImeCursorArea nspot_x nspot_y width height) },
    [NativeCall.setImeCursorArea nspot_x nspot_y width height])

/-- One mutator invocation on a `Window` (for reasoning about call
sequences). -/
inductive Op
  | set_title (title : String)
  | set_mouse_cursor (cursor : CursorIcon)
  | set_mouse_visible (visible : Bool)
  | request_redraw
  | set_ime_allowed (allowed : Bool)
  | set_fullscreen (fullscreen : Bool)
  | toggle_fullscreen
  | update_ime_position (point : Point) (size : SizeInfo)
deriving DecidableEq

/-- Dispatch one mutator. -/
def Window.step (w : Window) : Op → Window × List NativeCall
  | .set_title t => w.set_title t
  | .set_mouse_cursor c => w.set_mouse_cursor c
  | .set_mouse_visible v => w.set_mouse_visible v
  | .request_redraw => w.request_redraw
  | .set_ime_allowed b => w.set_ime_allowed b
  | .set_fullscreen b => w.set_fullscreen b
  | .toggle_fullscreen => w.toggle_fullscreen
  | .update_ime_position p s => w.update_ime_position p s

/-- Run a sequence of mutators, collecting every native call issued. -/
def Window.run (w : Window) : List Op → Window × List NativeCall
  | [] => (w, [])
  | op :: ops =>
    let r1 := w.step op
    let r2 := r1.1.run ops
    (r2.1, r1.2 ++ r2.2)

/-- The cache-coherence invariant of section 3 of the spec: the cached
fields mirror the native window's state. -/
def Window.cacheSync (w : Window) : Prop :=
  w.title = w.window.title ∧ w.current_mouse_cursor = w.window.cursor_icon ∧
    w.mouse_visible = w.window.cursor_visible

instance (w : Window) : Decidable w.cacheSync := by
  unfold Window.cacheSync; infer_instance

/-- `config::window::Decorations`. -/
inductive Decorations
  | Full
  | Transparent
  | Buttonless
  | None
deriving DecidableEq

/-- `winit::platform::macos::OptionAsAlt`. -/
inductive OptionAsAlt
  | OnlyLeft
  | OnlyRight
  | Both
  | None
deriving DecidableEq

/-- The slice of `config::window::WindowConfig` read by this module.
`maximized` and `fullscreen` stand for the observable results of the
`maximized()` and `fullscreen()` accessors (defined outside this file). -/
structure WindowConfig where
  decorations : Decorations
  position : Option (Int × Int)
  embed : Option Nat
  blur : Bool
  option_as_alt : OptionAsAlt
  maximized : Bool
  fullscreen : Option Fullscreen
  decorations_theme_variant : Option Theme
deriving DecidableEq

/-- `config::window::Identity` (the `class` field's `instance` component is
named `inst`, `instance` being reserved). -/
structure ClassNames where
  general : String
  inst : String
deriving DecidableEq

structure Identity where
  title : String
  class_names : ClassNames
deriving DecidableEq

/-- The macOS `WindowBuilder` flags touched by `get_platform_window`. -/
structure MacWindowBuilder where
  option_as_alt : OptionAsAlt
  tabbing_identifier : Option String
  title_hidden : Bool
  titlebar_transparent : Bool
  fullsize_content_view : Bool
  titlebar_buttons_hidden : Bool
  titlebar_hidden : Bool
deriving DecidableEq

/-- `WindowBuilder::new()` on macOS: no titlebar flags set. -/
def MacWindowBuilder.new : MacWindowBuilder where
  option_as_alt := OptionAsAlt.None
  tabbing_identifier := none
  title_hidden := false
  titlebar_transparent := false
  fullsize_content_view := false
  titlebar_buttons_hidden := false
  titlebar_hidden := false

/-- `Window::get_platform_window`, macOS variant (the `Identity` argument is
ignored by the source). -/
def get_platform_window_macos (_identity : Identity) (window_config : WindowConfig)
    (tabbing_id : Option String) : MacWindowBuilder :=
  let window := { MacWindowBuilder.new with option_as_alt := window_config.option_as_alt }
  let window := match tabbing_id with
    | some tid => { window with tabbing_identifier := some tid }
    | none => window
  match window_config.decorations with
  | .Full => window
  | .Transparent =>
    { window with
        title_hidden := true, titlebar_transparent := true, fullsize_content_view := true }
  | .Buttonless =>
    { window with
        title_hidden := true, titlebar_buttons_hidden := true, titlebar_transparent := true,
        fullsize_content_view := true }
  | .None => { window with titlebar_hidden := true }

/-- `winit::window::Icon`: raw 8-bit RGBA data with dimensions. -/
structure Icon where
  rgba : List Nat
  width : Nat
  height : Nat
deriving DecidableEq

/-- `Icon::from_rgba`: accepts the data exactly when its length is
`width * height * 4` bytes (4 bytes per RGBA pixel). -/
def Icon.from_rgba (rgba : List Nat) (width height : Nat) : Option Icon :=
  if rgba.length = width * height * 4 then some ⟨rgba, width, height⟩ else none

/-- Header information produced by the `png` crate's `read_info`. -/
structure PngInfo where
  width : Nat
  height : Nat
deriving DecidableEq

/-- Outcome of the external `png` crate calls on the embedded icon bytes,
taken as an input to the model: `read_info = none` models a `read_info()`
error, `next_frame = none` models a `next_frame` error (which leaves the
zero-initialized buffer untouched), and `some data` the frame bytes
written on success. -/
structure PngDecodeOutcome where
  read_info : Option PngInfo
  output_buffer_size : Nat
  next_frame : Option (List Nat)
deriving DecidableEq

/-- The icon-decoding block at the top of the Unix `get_platform_window`
(x11 feature): `read_info` and `Icon::from_rgba` failures panic via
`expect`; the result of `next_frame` is discarded with `let _ = ...`. -/
def decode_window_icon (d : PngDecodeOutcome) : Fatal Icon :=
  match d.read_info with
  | none => .panicked "invalid embedded icon"
  | some info =>
    let buf : List Nat := List.replicate d.output_buffer_size 0
    let buf := match d.next_frame with
      | some data => data
      | none => buf
    match Icon.from_rgba buf info.width info.height with
    | some icon => .ok icon
    | none => .panicked "invalid embedded icon format"

/-- The Unix/X11 `WindowBuilder` options touched by this module. -/
structure WindowBuilder where
  name : Option (String × String)
  decorations : Bool
  window_icon : Option Icon
  x11_visual : Option Nat
  position : Option (Int × Int)
  activation_token : Option String
  embed_parent_window : Option Nat
  title : String
  theme : Option Theme
  visible : Bool
  transparent : Bool
  blur : Bool
  maximized : Bool
  fullscreen : Option Fullscreen
deriving DecidableEq

/-- `WindowBuilder::new()` defaults (winit). -/
def WindowBuilder.new : WindowBuilder where
  name := none
  decorations := true
  window_icon := none
  x11_visual := none
  position := none
  activation_token := none
  embed_parent_window := none
  title := "winit window"
  theme := none
  visible := true
  transparent := false
  blur := false
  maximized := false
  fullscreen := none

/-- `Window::get_platform_window`, Unix variant with the x11 feature:
decode the embedded icon (panicking on header or RGBA-format failure),
then set class name, decorations flag, icon, and the optional X11 visual. -/
def get_platform_window_x11 (identity : Identity) (window_config : WindowConfig)
    (icon_png : PngDecodeOutcome) (x11_visual : Option Nat) : Fatal WindowBuilder :=
  match decode_window_icon icon_png with
  | .panicked msg => .panicked msg
  | .ok icon =>
    let builder := { WindowBuilder.new with
      name := some (identity.class_names.general, identity.class_names.inst),
      decorations := window_config.decorations ≠ Decorations.None }
    let builder := { builder with window_icon := some icon }
    let builder := match x11_visual with
      | some visual => { builder with x11_visual := some visual }
      | none => builder
    .ok builder

/-- `winit::error::OsError` (opaque to this module). -/
inductive OsError
  | os (message : String)
deriving DecidableEq

/-- `crossfont::Error` (opaque to this module). -/
inductive FontError
  | font (message : String)
deriving DecidableEq

/-- The `Error` enum of `window.rs`. -/
inductive Error
  | WindowCreation (err : OsError)
  | Font (err : FontError)
deriving DecidableEq

/-- `From<winit::error::OsError> for Error`. -/
def Error.from_os_error (val : OsError) : Error :=
  Error.WindowCreation val

/-- The slice of `EventLoopWindowTarget` read by `Window::new` on Unix:
the startup-notify activation token present in the environment, and the
X11-ness of the event loop. -/
structure EventLoopWindowTarget where
  env_activation_token : Option String
  is_x11 : Bool
deriving DecidableEq

/-- The slice of `UiConfig` read by this module (`window_opacity` stands
for the observable result of the `window_opacity()` accessor). -/
structure UiConfig where
  window : WindowConfig
  window_opacity : ℚ
deriving DecidableEq

/-- The builder value on which `Window::new` finally calls `.build(...)`:
the platform builder of `get_platform_window` (Unix/x11 variant) with the
common options applied in the source's order — position, activation token,
X11 embedding, title, theme, visibility `false`, transparency, blur,
maximized, fullscreen. -/
def Window.final_builder (event_loop : EventLoopWindowTarget) (config : UiConfig)
    (identity : Identity) (icon_png : PngDecodeOutcome) (x11_visual : Option Nat) :
    Fatal WindowBuilder :=
  match get_platform_window_x11 identity config.window icon_png x11_visual with
  | .panicked msg => .panicked msg
  | .ok wb =>
    let wb := match config.window.position with
      | some p => { wb with position := some p }
      | none => wb
    let wb := match event_loop.env_activation_token with
      | some token => { wb with activation_token := some token }
      | none => wb
    let wb := match (if event_loop.is_x11 then config.window.embed else none) with
      | some parent_window_id => { wb with embed_parent_window := some parent_window_id }
      | none => wb
    .ok { wb with
      title := identity.title,
      theme := config.window.decorations_theme_variant,
      visible := false,
      transparent := true,
      blur := config.window.blur,
      maximized := config.window.maximized,
      fullscreen := config.window.fullscreen }

/-- `Window::new` (Unix/x11 variant): assemble the builder, run the native
`build` call (any native error propagating as `Error::WindowCreation`),
then perform the post-build setup — text cursor, IME enable + purpose,
transparency hint from the configured opacity — and assemble the `Window`
value.  The native layer's behaviour is the parameter `build`. -/
def Window.new (event_loop : EventLoopWindowTarget) (config : UiConfig) (identity : Identity)
    (icon_png : PngDecodeOutcome) (x11_visual : Option Nat)
    (build : WindowBuilder → Except OsError NativeWindow) : Fatal (Except Error Window) :=
  match Window.final_builder event_loop config identity icon_png x11_visual with
  | .panicked msg => .panicked msg
  | .ok wb =>
    match build wb with
    | .error e => .ok (.error (Error.from_os_error e))
    | .ok native =>
      let current_mouse_cursor := CursorIcon.Text
      let native := native.apply (NativeCall.setCursorIcon current_mouse_cursor)
      let native := native.apply (NativeCall.setImeAllowed true)
      let native := native.apply (NativeCall.setImePurpose ImePurpose.Terminal)
      let native := native.apply (NativeCall.setTransparent (decide (config.window_opacity < 1)))
      let scale_factor := native.scale_factor
      let is_x11 := match native.raw_handle with
        | RawWindowHandle.Xlib _ => true
        | _ => false
      .ok (.ok
        { requested_redraw := false
          title := identity.title
          current_mouse_cursor := current_mouse_cursor
          mouse_visible := true
          has_frame := true
          scale_factor := scale_factor
          window := native
          is_x11 := is_x11 })

/-- `usize::MAX + 1`: the modulus of Rust's 64-bit `usize` arithmetic. -/
def USIZE_MOD : Nat := 2 ^ 64

/-- Rust `a - b` on `usize` in release mode (wrapping two's-complement
subtraction), for `b ≤ usize::MAX`. -/
def usize_wrapping_sub (a b : Nat) : Nat :=
  (a + (USIZE_MOD - b % USIZE_MOD)) % USIZE_MOD

/-- The index expression `self.window.num_tabs() - 1` of `select_last_tab`:
Rust `usize` subtraction panics on underflow (debug assertions). -/
def select_last_tab_index (num_tabs : Nat) : Fatal Nat :=
  if num_tabs = 0 then .panicked "attempt to subtract with overflow"
  else .ok (num_tabs - 1)

/-- `Window::select_last_tab` (macOS): select the tab at index
`num_tabs() - 1`. -/
def Window.select_last_tab (w : Window) : Fatal (Window × List NativeCall) :=
  match select_last_tab_index w.window.num_tabs with
  | .panicked msg => .panicked msg
  | .ok i =>
    .ok ({ w with window := w.window.apply (NativeCall.selectTabAtIndex i) },
      [NativeCall.selectTabAtIndex i])

/-- Whether a `Fatal` computation hit a panic. -/
def Fatal.isPanic {α : Type} : Fatal α → Bool
  | .panicked _ => true
  | .ok _ => false

/-- A concrete native-window state for concrete evaluations. -/
def sampleNative : NativeWindow where
  raw_handle := RawWindowHandle.Wayland 7
  scale_factor := 1
  title := "Alacritty"
  cursor_icon := CursorIcon.Text
  cursor_visible := true
  ime_allowed := true
  ime_purpose := ImePurpose.Terminal
  transparent := false
  fullscreen := none
  num_tabs := 2

/-- A concrete cache-coherent window (non-X11) for concrete evaluations. -/
def sampleWindow0 : Window where
  has_frame := true
  scale_factor := 1
  requested_redraw := false
  window := sampleNative
  title := "Alacritty"
  is_x11 := false
  current_mouse_cursor := CursorIcon.Text
  mouse_visible := true

/-- A window whose native fullscreen state is exclusive fullscreen. -/
def exclusiveFullscreenWindow : Window :=
  { sampleWindow0 with
      window := { sampleNative with fullscreen := some (Fullscreen.Exclusive 0) } }

/-- A concrete event-loop target: no activation token, not X11. -/
def sampleEventLoop : EventLoopWindowTarget where
  env_activation_token := none
  is_x11 := false

/-- A concrete window configuration. -/
def sampleWindowConfig : WindowConfig where
  decorations := Decorations.Full
  position := none
  embed := none
  blur := false
  option_as_alt := OptionAsAlt.None
  maximized := false
  fullscreen := none
  decorations_theme_variant := none

/-- A concrete UI configuration, with semi-transparent opacity. -/
def sampleUiConfig : UiConfig where
  window := sampleWindowConfig
  window_opacity := 1 / 2

/-- A concrete identity record. -/
def sampleIdentity : Identity where
  title := "Alacritty"
  class_names := { general := "Alacritty", inst := "Alacritty" }

/-- A PNG decode outcome where every step succeeds (1×1 RGBA image). -/
def samplePng : PngDecodeOutcome where
  read_info := some { width := 1, height := 1 }
  output_buffer_size := 4
  next_frame := some [1, 2, 3, 4]

/-- A PNG decode outcome whose header read succeeds but whose pixel-data
read (`next_frame`) fails. -/
def badPng : PngDecodeOutcome where
  read_info := some { width := 1, height := 1 }
  output_buffer_size := 4
  next_frame := none

/-- A native layer that accepts every build request, honouring the
builder's title, transparency and fullscreen settings. -/
def sampleBuild : WindowBuilder → Except OsError NativeWindow :=
  fun wb => Except.ok
    { raw_handle := RawWindowHandle.Wayland 7
      scale_factor := 1
      title := wb.title
      cursor_icon := CursorIcon.Default
      cursor_visible := true
      ime_allowed := false
      ime_purpose := ImePurpose.Normal
      transparent := wb.transparent
      fullscreen := wb.fullscreen
      num_tabs := 1 }

/-- A native layer that refuses every build request. -/
def sampleFailBuild : WindowBuilder → Except OsError NativeWindow :=
  fun _ => Except.error (OsError.os "no compatible visual")

/-- The builder `Window::new` hands to the native build call on the sample
inputs. -/
def sampleBuilder : WindowBuilder :=
  match Window.final_builder sampleEventLoop sampleUiConfig sampleIdentity samplePng none with
  | .ok wb => wb
  | .panicked _ => WindowBuilder.new

/-- The window produced by `Window::new` on the sample inputs. -/
def sampleNewWindow : Window :=
  match Window.new sampleEventLoop sampleUiConfig sampleIdentity samplePng none sampleBuild with
  | .ok (.ok w) => w
  | _ => sampleWindow0

/-- C2: `update_ime_position` pushes a single IME anchor with
`x = padding_x + column * cell_width`,
`y = padding_y + (line + offset) * cell_height` where `offset` is 1 on X11
and 0 elsewhere, width `2 * cell_width` and height `cell_height`. -/
theorem c2_update_ime_position_formula (w : Window) (point : Point) (size : SizeInfo) :
    (w.update_ime_position point size).2 =
      [NativeCall.setImeCursorArea
        (size.padding_x + (point.column : ℚ) * size.cell_width)
        (size.padding_y + ((point.line : ℚ) + (if w.is_x11 then 1 else 0)) * size.cell_height)
        (2 * size.cell_width) size.cell_height] := by
  cases h : w.is_x11 <;> simp [Window.update_ime_position, h, mul_comm]

theorem set_ime_allowed_x11 (w : Window) (b : Bool) (h : w.is_x11 = true) :
    w.set_ime_allowed b = (w, []) := by
  simp [Window.set_ime_allowed, h]

theorem set_ime_allowed_forward (w : Window) (b : Bool) (h : w.is_x11 = false) :
    w.set_ime_allowed b =
      ({ w with window := { w.window with ime_allowed := b } }, [NativeCall.setImeAllowed b]) := by
  simp [Window.set_ime_allowed, h, NativeWindow.apply]

theorem getLast_getD_cons {α : Type} (bs : List α) : ∀ b d : α,
    (b :: bs).getLast?.getD d = bs.getLast?.getD b := by
  induction bs with
  | nil => intro b d; simp
  | cons c cs ih =>
    intro b d
    rw [List.getLast?_cons_cons, ih c d, ih c b]

theorem run_ime_seq (w : Window) (bs : List Bool) :
    Window.run w (bs.map Op.set_ime_allowed) =
      (if w.is_x11 then (w, [])
       else
        ({ w with window := { w.window with ime_allowed := bs.getLastD w.window.ime_allowed } },
          bs.map NativeCall.setImeAllowed)) := by
  induction bs generalizing w with
  | nil =>
    obtain ⟨hf, sf, rr, ⟨rh, nsf, nt, ci, cv, ia, ip, tr, fs, ntb⟩, tt, ix, cm, mv⟩ := w
    cases ix <;> simp [Window.run]
  | cons b bs ih =>
    cases h : w.is_x11 with
    | true =>
      simp [Window.run, Window.step, set_ime_allowed_x11 w b h, ih, h]
    | false =>
      simp [Window.run, Window.step, set_ime_allowed_forward w b h, ih, h, getLast_getD_cons]

/-- C3: `set_ime_allowed` issues no native call on X11 — native IME state
is unchanged by any sequence of `set_ime_allowed` calls there — and off
X11 it forwards each call to the native layer exactly once (the native
state then tracking the last forwarded value). -/
theorem c3_set_ime_allowed_policy (w : Window) (b : Bool) (bs : List Bool) :
    (w.set_ime_allowed b).2 = (if w.is_x11 then [] else [NativeCall.setImeAllowed b]) ∧
    (Window.run w (bs.map Op.set_ime_allowed)).2 =
      (if w.is_x11 then [] else bs.map NativeCall.setImeAllowed) ∧
    (Window.run w (bs.map Op.set_ime_allowed)).1.window.ime_allowed =
      (if w.is_x11 then w.window.ime_allowed else bs.getLastD w.window.ime_allowed) := by
  refine ⟨?_, ?_, ?_⟩
  · cases h : w.is_x11
    · simp [set_ime_allowed_forward w b h]
    · simp [set_ime_allowed_x11 w b h]
  · rw [run_ime_seq]; cases h : w.is_x11 <;> simp [h]
  · rw [run_ime_seq]; cases h : w.is_x11 <;> simp [h]

/-- C4: the macOS builder's decoration mapping — `Full` sets no titlebar
flags; `Transparent` hides the title text, makes the titlebar transparent
and extends the content view under the titlebar; `Buttonless` sets the
same flags plus hides the titlebar buttons; `None` hides the titlebar
entirely. -/
theorem c4_macos_decorations (identity : Identity) (wc : WindowConfig)
    (tabbing_id : Option String) :
    (let b := get_platform_window_macos identity { wc with decorations := Decorations.Full }
        tabbing_id
     b.title_hidden = false ∧ b.titlebar_transparent = false ∧
       b.fullsize_content_view = false ∧ b.titlebar_buttons_hidden = false ∧
       b.titlebar_hidden = false) ∧
    (let b := get_platform_window_macos identity { wc with decorations := Decorations.Transparent }
        tabbing_id
     b.title_hidden = true ∧ b.titlebar_transparent = true ∧
       b.fullsize_content_view = true ∧ b.titlebar_buttons_hidden = false ∧
       b.titlebar_hidden = false) ∧
    (let b := get_platform_window_macos identity { wc with decorations := Decorations.Buttonless }
        tabbing_id
     b.title_hidden = true ∧ b.titlebar_transparent = true ∧
       b.fullsize_content_view = true ∧ b.titlebar_buttons_hidden = true ∧
       b.titlebar_hidden = false) ∧
    (let b := get_platform_window_macos identity { wc with decorations := Decorations.None }
        tabbing_id
     b.title_hidden = false ∧ b.titlebar_transparent = false ∧
       b.fullsize_content_view = false ∧ b.titlebar_buttons_hidden = false ∧
       b.titlebar_hidden = true) := by
  cases tabbing_id <;> simp [get_platform_window_macos, MacWindowBuilder.new]

/-- C5: `request_redraw` issues a native redraw request exactly when
`requested_redraw` is false at the call, sets the flag in that case, and
two consecutive calls starting from a cleared flag issue exactly one
native request. -/
theorem c5_request_redraw_coalescing (w : Window) :
    (w.request_redraw).2 = (if w.requested_redraw then [] else [NativeCall.requestRedraw]) ∧
    (w.request_redraw).1.requested_redraw = true ∧
    (Window.run { w with requested_redraw := false }
        [Op.request_redraw, Op.request_redraw]).2 = [NativeCall.requestRedraw] := by
  cases h : w.requested_redraw <;>
    simp [Window.request_redraw, Window.run, Window.step, NativeWindow.apply, h]

/-- C6 counterexample: on a window in exclusive fullscreen, two consecutive
`toggle_fullscreen` calls do not restore the original fullscreen state
(the second toggle requests borderless fullscreen instead). -/
theorem c6_counterexample :
    ((exclusiveFullscreenWindow.toggle_fullscreen).1.toggle_fullscreen).1.window.fullscreen ≠
      exclusiveFullscreenWindow.window.fullscreen := by
  decide

/-- C6 (amended): `toggle_fullscreen` requests borderless fullscreen on the
current monitor when the native state is none, and none otherwise; two
consecutive toggles restore the original state exactly when that state was
none or borderless-on-current-monitor (the only states this module itself
requests), and otherwise leave the window in borderless fullscreen. -/
theorem c6_toggle_fullscreen_behavior (w : Window) :
    (w.toggle_fullscreen).2 =
      [NativeCall.setFullscreen
        (if w.window.fullscreen.isNone then some (Fullscreen.Borderless none) else none)] ∧
    ((w.toggle_fullscreen).1.toggle_fullscreen).1.window.fullscreen =
      (if w.window.fullscreen = none ∨ w.window.fullscreen = some (Fullscreen.Borderless none)
       then w.window.fullscreen else some (Fullscreen.Borderless none)) := by
  obtain ⟨hf, sf, rr, ⟨rh, nsf, nt, ci, cv, ia, ip, tr, fs, ntb⟩, tt, ix, cm, mv⟩ := w
  cases fs with
  | none => simp [Window.toggle_fullscreen, Window.set_fullscreen, NativeWindow.apply]
  | some f =>
    cases f with
    | Exclusive vm =>
      simp [Window.toggle_fullscreen, Window.set_fullscreen, NativeWindow.apply]
    | Borderless m =>
      cases m <;> simp [Window.toggle_fullscreen, Window.set_fullscreen, NativeWindow.apply]

/-- C10: `select_last_tab` targets index `num_tabs - 1` in unsigned
arithmetic: with at least one tab it selects index `num_tabs - 1`, and
with zero tabs the subtraction underflows (a panic under debug assertions,
wrapping to `2^64 - 1` in release mode) instead of no-oping. -/
theorem c10_select_last_tab_underflow (w : Window) (n : Nat) :
    select_last_tab_index (n + 1) = Fatal.ok n ∧
    select_last_tab_index 0 = Fatal.panicked "attempt to subtract with overflow" ∧
    usize_wrapping_sub 0 1 = 2 ^ 64 - 1 ∧
    Window.select_last_tab { w with window := { w.window with num_tabs := n + 1 } } =
      Fatal.ok ({ w with window := { w.window with num_tabs := n + 1 } },
        [NativeCall.selectTabAtIndex n]) ∧
    Window.select_last_tab { w with window := { w.window with num_tabs := 0 } } =
      Fatal.panicked "attempt to subtract with overflow" := by
  refine ⟨?_, ?_, by decide, ?_, ?_⟩
  · simp [select_last_tab_index]
  · simp [select_last_tab_index]
  · simp [Window.select_last_tab, select_last_tab_index, NativeWindow.apply]
  · simp [Window.select_last_tab, select_last_tab_index]

theorem cacheSync_step (w : Window) (op : Op) (h : w.cacheSync) : (w.step op).1.cacheSync := by
  obtain ⟨h1, h2, h3⟩ := h
  cases op <;>
    simp only [Window.step, Window.set_title, Window.set_mouse_cursor, Window.set_mouse_visible,
      Window.request_redraw, Window.set_ime_allowed, Window.set_fullscreen,
      Window.toggle_fullscreen, Window.update_ime_position] <;>
    (try split_ifs) <;>
    simp_all [Window.cacheSync, NativeWindow.apply]

theorem cacheSync_run (w : Window) (ops : List Op) (h : w.cacheSync) :
    (Window.run w ops).1.cacheSync := by
  induction ops generalizing w with
  | nil => simpa [Window.run]
  | cons op ops ih =>
    simp only [Window.run]
    exact ih _ (cacheSync_step w op h)

/-- C1 counterexample: `set_title` is not cache-guarded — calling it twice
in a row with the window's currently cached title issues two native calls,
not at most one (and not zero). -/
theorem c1_counterexample :
    sampleWindow0.title = "Alacritty" ∧
    ¬ ((Window.run sampleWindow0
          [Op.set_title "Alacritty", Op.set_title "Alacritty"]).2.length ≤ 1) := by
  decide

/-- C1 (amended): `set_mouse_cursor`, `set_mouse_visible` and
`request_redraw` are cache-guarded — a repeated call issues no second
native call, and a call with the currently cached value issues none — but
`set_title` pushes a native call on every invocation; the cached fields
`title`, `current_mouse_cursor`, `mouse_visible` always equal the last
value pushed to the native window (an invariant preserved by every
mutator sequence). -/
theorem c1_cached_mutators (w : Window) (c : CursorIcon) (b : Bool) (t : String)
    (ops : List Op) (h : w.cacheSync) :
    (w.set_mouse_cursor w.current_mouse_cursor).2 = [] ∧
    ((w.set_mouse_cursor c).1.set_mouse_cursor c).2 = [] ∧
    (w.set_mouse_visible w.mouse_visible).2 = [] ∧
    ((w.set_mouse_visible b).1.set_mouse_visible b).2 = [] ∧
    ((w.request_redraw).1.request_redraw).2 = [] ∧
    (w.set_title t).2 = [NativeCall.setTitle t] ∧
    (Window.run w ops).1.cacheSync := by
  refine ⟨?_, ?_, ?_, ?_, ?_, ?_, cacheSync_run w ops h⟩
  · simp [Window.set_mouse_cursor]
  · by_cases hc : c = w.current_mouse_cursor <;> simp [Window.set_mouse_cursor, hc]
  · simp [Window.set_mouse_visible]
  · by_cases hb : b = w.mouse_visible <;> simp [Window.set_mouse_visible, hb]
  · cases hr : w.requested_redraw <;> simp [Window.request_redraw, hr]
  · simp [Window.set_title]

/-- C1 witness: a concrete cache-coherent window stays cache-coherent
across a concrete mutator sequence. -/
theorem c1_cached_mutators_witness :
    sampleWindow0.cacheSync ∧
      (Window.run sampleWindow0 [Op.set_title "t", Op.request_redraw]).1.cacheSync :=
  ⟨by decide,
    (c1_cached_mutators sampleWindow0 CursorIcon.Default true "t"
        [Op.set_title "t", Op.request_redraw] (by decide)).2.2.2.2.2.2⟩

/-- C7: a successful `Window::new` returns a window with
`requested_redraw = false`, `has_frame = true`, `mouse_visible = true`,
the text-caret mouse cursor, and the identity's title; the native build is
invoked on a builder with visibility `false`; and the post-build
transparency hint is true exactly when the configured opacity is below 1. -/
theorem c7_new_fields (event_loop : EventLoopWindowTarget) (config : UiConfig)
    (identity : Identity) (icon_png : PngDecodeOutcome) (x11_visual : Option Nat)
    (build : WindowBuilder → Except OsError NativeWindow) (wb : WindowBuilder) (w : Window)
    (hwb : Window.final_builder event_loop config identity icon_png x11_visual = Fatal.ok wb)
    (hw : Window.new event_loop config identity icon_png x11_visual build =
      Fatal.ok (Except.ok w)) :
    w.requested_redraw = false ∧ w.has_frame = true ∧ w.mouse_visible = true ∧
      w.current_mouse_cursor = CursorIcon.Text ∧ w.title = identity.title ∧
      wb.visible = false ∧ (w.window.transparent = true ↔ config.window_opacity < 1) := by
  have hvis : wb.visible = false := by
    unfold Window.final_builder at hwb
    split at hwb
    · cases hwb
    · injection hwb with hrec
      rw [← hrec]
  unfold Window.new at hw
  split at hw
  · rename_i msg heq
    rw [hwb] at heq
    cases heq
  · rename_i wb2 heq
    rw [hwb] at heq
    injection heq with hwb2
    subst hwb2
    split at hw
    · simp at hw
    · rename_i native heq2
      injection hw with hw1
      injection hw1 with hw2
      subst hw2
      refine ⟨rfl, rfl, rfl, rfl, rfl, hvis, ?_⟩
      simp [NativeWindow.apply]

/-- C8: `Window::new` returns `Err(Error::WindowCreation e)` exactly when
the native build call fails with `e` (in which case no `Window` value is
produced), and the native layer is consulted only once, on the assembled
builder — there is no retry. -/
theorem c8_window_creation_error (event_loop : EventLoopWindowTarget) (config : UiConfig)
    (identity : Identity) (icon_png : PngDecodeOutcome) (x11_visual : Option Nat)
    (build build2 : WindowBuilder → Except OsError NativeWindow) (wb : WindowBuilder)
    (e : OsError)
    (hwb : Window.final_builder event_loop config identity icon_png x11_visual = Fatal.ok wb) :
    (Window.new event_loop config identity icon_png x11_visual build =
        Fatal.ok (Except.error (Error.WindowCreation e)) ↔ build wb = Except.error e) ∧
    (build wb = build2 wb →
      Window.new event_loop config identity icon_png x11_visual build =
        Window.new event_loop config identity icon_png x11_visual build2) := by
  constructor
  · unfold Window.new
    rw [hwb]
    cases hb : build wb with
    | error e2 => simp [hb, Error.from_os_error]
    | ok native => simp [hb]
  · intro h2
    unfold Window.new
    rw [hwb]
    cases hb : build wb with
    | error e2 => rw [hb] at h2; simp [hb, ← h2]
    | ok native => rw [hb] at h2; simp [hb, ← h2]

/-- C7 witness: on concrete inputs with opacity 1/2 and an accepting
native layer, `Window::new` succeeds and the theorem's hypotheses hold. -/
theorem c7_new_fields_witness :
    Window.final_builder sampleEventLoop sampleUiConfig sampleIdentity samplePng none =
        Fatal.ok sampleBuilder ∧
    Window.new sampleEventLoop sampleUiConfig sampleIdentity samplePng none sampleBuild =
        Fatal.ok (Except.ok sampleNewWindow) ∧
    sampleNewWindow.title = sampleIdentity.title :=
  ⟨rfl, rfl,
    (c7_new_fields sampleEventLoop sampleUiConfig sampleIdentity samplePng none sampleBuild
        sampleBuilder sampleNewWindow rfl rfl).2.2.2.2.1⟩

/-- C8 witness: a concrete refusing native layer makes `Window::new`
return `Error::WindowCreation` with the native error. -/
theorem c8_window_creation_error_witness :
    Window.final_builder sampleEventLoop sampleUiConfig sampleIdentity samplePng none =
        Fatal.ok sampleBuilder ∧
    Window.new sampleEventLoop sampleUiConfig sampleIdentity samplePng none sampleFailBuild =
      Fatal.ok (Except.error (Error.WindowCreation (OsError.os "no compatible visual"))) :=
  ⟨rfl,
    (c8_window_creation_error sampleEventLoop sampleUiConfig sampleIdentity samplePng none
        sampleFailBuild sampleFailBuild sampleBuilder (OsError.os "no compatible visual")
        rfl).1.mpr rfl⟩

/-- C9 counterexample: a PNG whose header read succeeds but whose
pixel-data read (`next_frame`) fails is not treated as fatal — the error
is discarded, the icon is built from the zero-initialized buffer, and the
builder is returned. -/
theorem c9_counterexample :
    badPng.next_frame = none ∧
    decode_window_icon badPng = Fatal.ok { rgba := [0, 0, 0, 0], width := 1, height := 1 } ∧
    Fatal.isPanic (get_platform_window_x11 sampleIdentity sampleWindowConfig badPng none)
      = false := by
  decide

/-- C9 (amended): failures of the PNG header read (`read_info`) and of the
RGBA icon construction (`Icon::from_rgba`) are fatal panics, and
`get_platform_window` panics exactly when the icon decode does; but a
failure of the pixel-data read (`next_frame`) is silently ignored — the
icon is then built from the zero-initialized buffer. -/
theorem c9_icon_decode_steps (identity : Identity) (wc : WindowConfig) (x11_visual : Option Nat)
    (d : PngDecodeOutcome) (info : PngInfo) (n : Nat) (data : List Nat)
    (nf : Option (List Nat)) :
    decode_window_icon { read_info := none, output_buffer_size := n, next_frame := nf } =
        Fatal.panicked "invalid embedded icon" ∧
    decode_window_icon { read_info := some info, output_buffer_size := n, next_frame := none } =
      (if n = info.width * info.height * 4 then
        Fatal.ok { rgba := List.replicate n 0, width := info.width, height := info.height }
       else Fatal.panicked "invalid embedded icon format") ∧
    decode_window_icon
        { read_info := some info, output_buffer_size := n, next_frame := some data } =
      (if data.length = info.width * info.height * 4 then
        Fatal.ok { rgba := data, width := info.width, height := info.height }
       else Fatal.panicked "invalid embedded icon format") ∧
    Fatal.isPanic (get_platform_window_x11 identity wc d x11_visual) =
      Fatal.isPanic (decode_window_icon d) := by
  refine ⟨rfl, ?_, ?_, ?_⟩
  · simp only [decode_window_icon, Icon.from_rgba, List.length_replicate]
    split_ifs <;> simp_all
  · simp only [decode_window_icon, Icon.from_rgba]
    split_ifs <;> simp_all
  · unfold get_platform_window_x11
    cases hd : decode_window_icon d with
    | panicked msg => simp [Fatal.isPanic]
    | ok icon => cases x11_visual <;> simp [Fatal.isPanic]

end Alacritty
